import Mathlib

/-!
Verification of the gsap-react-marquee component.

Shallow embedding of the marquee geometry and styling logic from
src/components/gsap-reactmarquee.utils.ts and
src/components/gsap-react-marquee.tsx. Pixel measurements and animation
quantities are modelled as rationals; JavaScript numbers that may be
non-finite are modelled by the JSNum type below.
-/

namespace GsapReactMarquee

/-! ## Direction handling (gsap-react-marquee.tsx, lines 47-48) -/

/-- The dir prop of the component: one of the four scroll directions. -/
inductive Dir where
  | right
  | left
  | up
  | down
deriving DecidableEq, BEq

/-- Embeds line 47 of gsap-react-marquee.tsx:
the marquee is vertical when dir is up or down. -/
def isVertical (dir : Dir) : Bool :=
  dir == Dir.up || dir == Dir.down

/-- Embeds line 48 of gsap-react-marquee.tsx:
the timeline plays in reverse when dir is down or right. -/
def isReverse (dir : Dir) : Bool :=
  dir == Dir.down || dir == Dir.right

/-- Embeds the rotate value set on the container by setupContainerStyles
(gsap-reactmarquee.utils.ts, line 94): 90 degrees when vertical, 0 otherwise. -/
def containerRotation (isVert : Bool) : ℚ :=
  if isVert then 90 else 0

/-! ## Scroll speed clamping (gsap-react-marquee.tsx, line 94) -/

/-- Embeds line 94 of gsap-react-marquee.tsx:
Math.min(4, Math.max(1.1, scrollSpeed)). -/
def clampedScrollSpeed (scrollSpeed : ℚ) : ℚ :=
  min 4 (max (11/10) scrollSpeed)

/-! ## Gradient color selection (gsap-react-marquee.tsx, lines 185-196) -/

/-- JavaScript truthiness of a value of type string or null:
truthy exactly when it is a non-empty string. -/
def jsTruthyStr : Option String → Bool
  | none => false
  | some s => !s.isEmpty

/-- Embeds getGradientColor (gsap-react-marquee.tsx, lines 185-196):
the user supplied gradientColor when truthy, otherwise the auto-detected
effectivelyGradient when the gradient prop is set and detection found a
color, otherwise the literal transparent. -/
def getGradientColor (gradientColor : Option String) (gradient : Bool)
    (effectivelyGradient : Option String) : String :=
  if jsTruthyStr gradientColor then gradientColor.getD "transparent"
  else if gradient && jsTruthyStr effectivelyGradient then
    effectivelyGradient.getD "transparent"
  else "transparent"

/-! ## Effective background color (gsap-reactmarquee.utils.ts, lines 46-61) -/

/-- The visibility test of line 53 of gsap-reactmarquee.utils.ts: a computed
backgroundColor counts as visible when it is truthy (non-empty) and is
neither the fully transparent rgba value nor the keyword transparent. -/
def isVisibleBg (bg : String) : Bool :=
  !bg.isEmpty && bg != "rgba(0, 0, 0, 0)" && bg != "transparent"

/-- Embeds getEffectiveBackgroundColor (gsap-reactmarquee.utils.ts,
lines 46-61). The finite chain of computed backgroundColor values, starting
at the element itself and walking up through parentElement, is modelled as a
list; the loop walks the list and returns the first visible background,
falling back to transparent. -/
def getEffectiveBackgroundColor : List String → String
  | [] => "transparent"
  | bg :: rest => if isVisibleBg bg then bg else getEffectiveBackgroundColor rest

/-! ## Minimum width (gsap-reactmarquee.utils.ts, lines 221-251) -/

/-- The CSS width value returned by getMinWidth: the keyword auto, a pixel
length, or the percentage 100%. -/
inductive MinWidth where
  | auto
  | px (v : ℚ)
  | percent100
deriving DecidableEq, BEq

/-- Embeds getMinWidth (gsap-reactmarquee.utils.ts, lines 221-251). The
content elements are represented by the list of their offsetHeight values,
in document order. -/
def getMinWidth (childrenHeights : List ℚ) (totalWidth containerMarqueeWidth : ℚ)
    (fill alignRotationWithY : Bool) : MinWidth :=
  if fill then MinWidth.auto
  else if alignRotationWithY && decide (0 < childrenHeights.length) then
    MinWidth.px (childrenHeights.headD 0)
  else if totalWidth < containerMarqueeWidth then MinWidth.percent100
  else MinWidth.px totalWidth

/-! ## Core animation geometry (gsap-reactmarquee.utils.ts, lines 281-412)

coreAnimation measures each animated element and builds, per element, a
two-part tween on the shared timeline. The measured quantities of one
element are collected in MarqueeElem; the per-call configuration
destructured from the props, plus the startX argument, in AnimConfig. -/

/-- Per-element measurements taken by coreAnimation: the DOM offsetLeft,
offsetWidth and offsetHeight of the element, the gsap-measured width
(widths[i], line 316) and the computed xPercent position (xPercents[i],
lines 324-326). -/
structure MarqueeElem where
  offsetLeft : ℚ
  offsetWidth : ℚ
  offsetHeight : ℚ
  width : ℚ
  xPercent : ℚ
deriving DecidableEq

/-- The configuration coreAnimation works with: the startX argument and the
spacing, speed and alignRotationWithY values destructured from props. -/
structure AnimConfig where
  startX : ℚ
  spacing : ℚ
  speed : ℚ
  alignRotationWithY : Bool

/-- curX of line 363: the current position of the element in pixels,
(xPercents[i] / 100) * widths[i]. -/
def curX (e : MarqueeElem) : ℚ :=
  e.xPercent / 100 * e.width

/-- distanceToStart of line 366: item.offsetLeft + curX - startX. -/
def distanceToStart (cfg : AnimConfig) (e : MarqueeElem) : ℚ :=
  e.offsetLeft + curX e - cfg.startX

/-- distanceToLoop of lines 374-376: with alignRotationWithY the element
height replaces its width (minus the spacing), otherwise the gsap width is
added to distanceToStart. -/
def distanceToLoop (cfg : AnimConfig) (e : MarqueeElem) : ℚ :=
  if cfg.alignRotationWithY then distanceToStart cfg e + e.offsetHeight - cfg.spacing
  else distanceToStart cfg e + e.width

/-- trackLength of lines 347-352, computed from the last animated element:
offsetLeft of the last element, plus its xPercent offset in pixels, minus
startX, plus its offsetWidth, plus the spacing. The empty-list default is
never used: coreAnimation is only called with a non-empty element list. -/
def trackLength (cfg : AnimConfig) (elems : List MarqueeElem) : ℚ :=
  let last := elems.getLastD ⟨0, 0, 0, 0, 0⟩
  last.offsetLeft + last.xPercent / 100 * last.width - cfg.startX +
    last.offsetWidth + cfg.spacing

/-- The xPercent target of the first tween (line 388):
((curX - distanceToLoop) / widths[i]) * 100. -/
def tween1EndXPercent (cfg : AnimConfig) (e : MarqueeElem) : ℚ :=
  (curX e - distanceToLoop cfg e) / e.width * 100

/-- The duration of the first tween (line 389): distanceToLoop / speed. -/
def tween1Duration (cfg : AnimConfig) (e : MarqueeElem) : ℚ :=
  distanceToLoop cfg e / cfg.speed

/-- The xPercent at which the second tween starts (line 399):
((curX - distanceToLoop + trackLength) / widths[i]) * 100. -/
def tween2StartXPercent (cfg : AnimConfig) (elems : List MarqueeElem)
    (e : MarqueeElem) : ℚ :=
  (curX e - distanceToLoop cfg e + trackLength cfg elems) / e.width * 100

/-- The xPercent at which the second tween ends (line 406): the original
xPercents[i] of the element. -/
def tween2EndXPercent (e : MarqueeElem) : ℚ :=
  e.xPercent

/-- The duration of the second tween (line 407):
(curX - distanceToLoop + trackLength - curX) / speed. -/
def tween2Duration (cfg : AnimConfig) (elems : List MarqueeElem)
    (e : MarqueeElem) : ℚ :=
  (curX e - distanceToLoop cfg e + trackLength cfg elems - curX e) / cfg.speed

/-- The timeline position at which the second tween is inserted (line 410):
distanceToLoop / speed, right after the first tween completes. -/
def tween2StartTime (cfg : AnimConfig) (e : MarqueeElem) : ℚ :=
  distanceToLoop cfg e / cfg.speed

/-! ## JavaScript numbers (for calculateDuplicates and the clone count) -/

/-- A JavaScript number as it matters to calculateDuplicates and the clone
rendering path: a finite rational, one of the two infinities, or NaN. -/
inductive JSNum where
  | num (q : ℚ)
  | posInf
  | negInf
  | nan
deriving DecidableEq

/-- The JavaScript strict less-than comparison; any comparison involving
NaN is false. -/
def JSNum.lt : JSNum → JSNum → Bool
  | .num a, .num b => decide (a < b)
  | .num _, .posInf => true
  | .negInf, .num _ => true
  | .negInf, .posInf => true
  | _, _ => false

/-- The JavaScript less-than-or-equal comparison; any comparison involving
NaN is false. -/
def JSNum.le : JSNum → JSNum → Bool
  | .nan, _ => false
  | _, .nan => false
  | .negInf, _ => true
  | _, .posInf => true
  | .posInf, _ => false
  | _, .negInf => false
  | .num a, .num b => decide (a ≤ b)

/-- JavaScript division. Division of a non-zero finite number by zero gives
a signed infinity, and 0 / 0 gives NaN (signed zero is not modelled: DOM
measurements are never negative zero). -/
def JSNum.div : JSNum → JSNum → JSNum
  | .num a, .num b =>
    if b = 0 then (if 0 < a then .posInf else if a < 0 then .negInf else .nan)
    else .num (a / b)
  | .posInf, .num b => if b < 0 then .negInf else .posInf
  | .negInf, .num b => if b < 0 then .posInf else .negInf
  | .num _, .posInf => .num 0
  | .num _, .negInf => .num 0
  | _, _ => .nan

/-- Math.ceil on a JavaScript number: the integer ceiling on finite values,
identity on infinities and NaN. -/
def JSNum.ceil : JSNum → JSNum
  | .num q => .num ⌈q⌉
  | .posInf => .posInf
  | .negInf => .negInf
  | .nan => .nan

/-- Whether a JavaScript number is finite, as tested by Number.isFinite. -/
def JSNum.isFinite : JSNum → Bool
  | .num _ => true
  | _ => false

/-- Embeds calculateDuplicates (gsap-reactmarquee.utils.ts, lines 177-201)
over JavaScript numbers. The fill prop is passed directly;
window.innerHeight, read in the vertical branch, is the last parameter. -/
def calculateDuplicates (marqueeChildrenWidth containerMarqueeWidth : JSNum)
    (isVert : Bool) (fill : Bool) (windowInnerHeight : JSNum) : JSNum :=
  if !fill then .num 1
  else
    let targetWidth := if isVert then windowInnerHeight else containerMarqueeWidth
    if JSNum.lt marqueeChildrenWidth targetWidth then
      (targetWidth.div marqueeChildrenWidth).ceil
    else .num 1

/-- Embeds the clone rendering of gsap-react-marquee.tsx, lines 205-216:
the number of cloned marquee copies produced by clonedMarquees. The guard of
line 206 returns null (no clones) when marqueeDuplicates is non-finite or at
most zero; otherwise Array.from builds one clone per index below the length,
which for a finite positive value is the floor of that value (clamping of
ToLength above 2^53 - 1 is immaterial here). -/
def clonedMarqueesCount (marqueeDuplicates : JSNum) : ℕ :=
  if !marqueeDuplicates.isFinite || JSNum.le marqueeDuplicates (.num 0) then 0
  else
    match marqueeDuplicates with
    | .num q => (⌊q⌋).toNat
    | _ => 0

/-- The total number of rendered copies of the children: the original
marquee div of lines 230-234 plus the clones of line 235. -/
def totalRenderedCopies (marqueeDuplicates : JSNum) : ℕ :=
  clonedMarqueesCount marqueeDuplicates + 1

/-! ## Drag progress wrapping (gsap-reactmarquee.utils.ts, lines 467-505) -/

/-- Truncation toward zero of a rational, as JavaScript computes the
integral part in its remainder operator. -/
def jsTrunc (x : ℚ) : ℤ :=
  if 0 ≤ x then ⌊x⌋ else ⌈x⌉

/-- The JavaScript remainder operator on finite numbers (b non-zero):
a - b * trunc(a / b), keeping the sign of the dividend. -/
def jsRem (a b : ℚ) : ℚ :=
  a - b * jsTrunc (a / b)

/-- Models gsap.utils.wrap(0, 1), the wrapping function built on line 470:
for min 0 and max 1 the animation library computes
((value % range) + range) % range + min with the JavaScript remainder,
range being 1. -/
def wrap01 (x : ℚ) : ℚ :=
  jsRem (jsRem x 1 + 1) 1

/-- Embeds the align function of lines 478-483: the timeline progress
written during a drag is wrap01 of startProgress + axis * ratio, where axis
is the drag displacement along the active axis and ratio is 1/trackLength. -/
def dragAlignProgress (startProgress axis ratio : ℚ) : ℚ :=
  wrap01 (startProgress + axis * ratio)

/-! ## Theorems -/

/-- C4: The dir prop takes exactly one of the four values right, left, up,
down; the component treats dir as vertical, rotating the container by 90
degrees, if and only if dir is up or down; and the timeline plays in
reverse if and only if dir is down or right. -/
theorem dir_vertical_reverse_characterization (d : Dir) :
    (d = Dir.right ∨ d = Dir.left ∨ d = Dir.up ∨ d = Dir.down) ∧
    (isVertical d = true ↔ d = Dir.up ∨ d = Dir.down) ∧
    (containerRotation (isVertical d) = 90 ↔ d = Dir.up ∨ d = Dir.down) ∧
    (isReverse d = true ↔ d = Dir.down ∨ d = Dir.right) := by
  cases d <;> refine ⟨by simp, by decide, by decide, by decide⟩

/-- C8: For every value of the scrollSpeed prop, the multiplier used by the
scroll-direction observer, min 4 (max 1.1 scrollSpeed), lies in the closed
interval from 1.1 to 4. -/
theorem clampedScrollSpeed_in_interval (s : ℚ) :
    11/10 ≤ clampedScrollSpeed s ∧ clampedScrollSpeed s ≤ 4 := by
  constructor
  · exact le_min (by norm_num) (le_max_left _ _)
  · exact min_le_left _ _

/-- C5: getGradientColor returns the gradientColor prop when it is set and
truthy; otherwise the auto-detected effective background color when the
gradient prop is true and detection found one; otherwise transparent. -/
theorem getGradientColor_spec (gc : Option String) (gradient : Bool)
    (eff : Option String) :
    (∀ s, gc = some s → s.isEmpty = false →
      getGradientColor gc gradient eff = s) ∧
    (jsTruthyStr gc = false → gradient = true → ∀ s, eff = some s →
      s.isEmpty = false → getGradientColor gc gradient eff = s) ∧
    (jsTruthyStr gc = false → (gradient = false ∨ jsTruthyStr eff = false) →
      getGradientColor gc gradient eff = "transparent") := by
  refine ⟨?_, ?_, ?_⟩
  · intro s hgc hs
    subst hgc
    simp [getGradientColor, jsTruthyStr, hs]
  · intro hgc hg s heff hs
    subst heff hg
    have ht : jsTruthyStr (some s) = true := by simp [jsTruthyStr, hs]
    simp [getGradientColor, hgc, ht]
  · intro hgc hcase
    rcases hcase with hg | heff
    · subst hg
      simp [getGradientColor, hgc]
    · simp [getGradientColor, hgc, heff]

/-- Witness for C5: with an explicit gradientColor of red, the gradient
color applied to the container is red. -/
theorem getGradientColor_spec_witness :
    getGradientColor (some "red") false none = "red" :=
  (getGradientColor_spec (some "red") false none).1 "red" rfl (by decide)

/-- C6: walking the finite chain of computed background colors upward,
getEffectiveBackgroundColor returns the first one that is non-empty and
neither fully transparent rgba nor the keyword transparent, and falls back
to transparent when no element of the chain has a visible background. -/
theorem getEffectiveBackgroundColor_spec (chain : List String) :
    getEffectiveBackgroundColor chain =
      (chain.find? isVisibleBg).getD "transparent" ∧
    ((∀ bg ∈ chain, isVisibleBg bg = false) →
      getEffectiveBackgroundColor chain = "transparent") := by
  have hmain : getEffectiveBackgroundColor chain =
      (chain.find? isVisibleBg).getD "transparent" := by
    induction chain with
    | nil => rfl
    | cons bg rest ih =>
      by_cases h : isVisibleBg bg
      · simp [getEffectiveBackgroundColor, h, List.find?_cons_of_pos]
      · simp only [getEffectiveBackgroundColor, h, if_false,
          List.find?_cons_of_neg _ h]
        exact ih
  refine ⟨hmain, fun hall => ?_⟩
  rw [hmain, List.find?_eq_none.mpr ?_]
  · rfl
  · intro bg hbg
    simp [hall bg hbg]

/-- Witness for C6: a chain whose only background color is the keyword
transparent yields the transparent fallback. -/
theorem getEffectiveBackgroundColor_spec_witness :
    getEffectiveBackgroundColor ["transparent"] = "transparent" :=
  (getEffectiveBackgroundColor_spec ["transparent"]).2 (by decide)

/-- C7: getMinWidth returns auto when fill is true; otherwise the first
content height as a pixel length when alignRotationWithY is true and the
content list is non-empty; otherwise 100 percent when totalWidth is below
the container width; otherwise totalWidth as a pixel length — with fill
taking precedence over alignRotationWithY, which takes precedence over the
width comparison. -/
theorem getMinWidth_spec (hs : List ℚ) (tw cw : ℚ) (fill align : Bool) :
    (fill = true → getMinWidth hs tw cw fill align = MinWidth.auto) ∧
    (fill = false → align = true → hs ≠ [] →
      getMinWidth hs tw cw fill align = MinWidth.px (hs.headD 0)) ∧
    (fill = false → (align = false ∨ hs = []) → tw < cw →
      getMinWidth hs tw cw fill align = MinWidth.percent100) ∧
    (fill = false → (align = false ∨ hs = []) → ¬tw < cw →
      getMinWidth hs tw cw fill align = MinWidth.px tw) := by
  refine ⟨?_, ?_, ?_, ?_⟩
  · intro hf
    subst hf
    simp [getMinWidth]
  · intro hf ha hne
    subst hf ha
    simp [getMinWidth, List.length_pos.mpr hne]
  · intro hf hcase hlt
    subst hf
    rcases hcase with ha | hnil
    · subst ha
      simp [getMinWidth, hlt]
    · subst hnil
      simp [getMinWidth, hlt]
  · intro hf hcase hge
    subst hf
    rcases hcase with ha | hnil
    · subst ha
      simp [getMinWidth, hge]
    · subst hnil
      simp [getMinWidth, hge]

/-- Witness for C7: with fill off, rotation alignment on and a first content
height of 40, the minimum width is 40 pixels. -/
theorem getMinWidth_spec_witness :
    getMinWidth [40, 50] 600 500 false true = MinWidth.px 40 :=
  (getMinWidth_spec [40, 50] 600 500 false true).2.1 rfl rfl (by decide)

/-- C1: for every non-empty element list with positive measured widths and
positive speed, the two tweens coreAnimation creates for each element have
total duration distanceToLoop / speed + (trackLength - distanceToLoop) /
speed = trackLength / speed, the same value for every element, so all
elements complete one loop cycle in the same time. -/
theorem coreAnimation_cycle_duration (cfg : AnimConfig)
    (elems : List MarqueeElem) (hne : elems ≠ [])
    (hspeed : 0 < cfg.speed) (hw : ∀ e ∈ elems, 0 < e.width) :
    ∀ e ∈ elems, tween1Duration cfg e + tween2Duration cfg elems e =
      trackLength cfg elems / cfg.speed := by
  intro e he
  have hs : cfg.speed ≠ 0 := ne_of_gt hspeed
  unfold tween1Duration tween2Duration
  field_simp
  ring

/-- Witness for C1: a one-element list with width 200, spacing 16, speed
100 and start 0 completes both tweens in trackLength / speed time. -/
theorem coreAnimation_cycle_duration_witness :
    tween1Duration ⟨0, 16, 100, false⟩ ⟨0, 200, 50, 200, 0⟩ +
      tween2Duration ⟨0, 16, 100, false⟩ [⟨0, 200, 50, 200, 0⟩]
        ⟨0, 200, 50, 200, 0⟩ =
      trackLength ⟨0, 16, 100, false⟩ [⟨0, 200, 50, 200, 0⟩] / 100 :=
  coreAnimation_cycle_duration ⟨0, 16, 100, false⟩ [⟨0, 200, 50, 200, 0⟩]
    (by decide) (by norm_num) (by decide) ⟨0, 200, 50, 200, 0⟩ (by decide)

/-- C2: for every element with positive width, the xPercent at which the
second tween starts exceeds the xPercent at which the first tween ends by
exactly trackLength / width * 100, a pixel offset of exactly trackLength,
and the second tween ends at the original xPercent of the element, so each
loop cycle returns every element to its starting position. -/
theorem coreAnimation_seamless_offsets (cfg : AnimConfig)
    (elems : List MarqueeElem) (e : MarqueeElem) (he : e ∈ elems)
    (hw : 0 < e.width) :
    tween2StartXPercent cfg elems e - tween1EndXPercent cfg e =
      trackLength cfg elems / e.width * 100 ∧
    (tween2StartXPercent cfg elems e - tween1EndXPercent cfg e) / 100 *
      e.width = trackLength cfg elems ∧
    tween2EndXPercent e = e.xPercent := by
  have hw0 : e.width ≠ 0 := ne_of_gt hw
  refine ⟨?_, ?_, rfl⟩ <;>
    · unfold tween2StartXPercent tween1EndXPercent
      field_simp
      ring

/-- Witness for C2: for the single element of width 200 the second tween
starts 216 xPercent after the first one ends, a pixel offset equal to the
track length 432, and ends at xPercent 0. -/
theorem coreAnimation_seamless_offsets_witness :
    tween2StartXPercent ⟨0, 16, 100, false⟩ [⟨0, 200, 50, 200, 0⟩]
        ⟨0, 200, 50, 200, 0⟩ -
      tween1EndXPercent ⟨0, 16, 100, false⟩ ⟨0, 200, 50, 200, 0⟩ =
      trackLength ⟨0, 16, 100, false⟩ [⟨0, 200, 50, 200, 0⟩] / 200 * 100 ∧
    (tween2StartXPercent ⟨0, 16, 100, false⟩ [⟨0, 200, 50, 200, 0⟩]
        ⟨0, 200, 50, 200, 0⟩ -
      tween1EndXPercent ⟨0, 16, 100, false⟩ ⟨0, 200, 50, 200, 0⟩) / 100 *
      200 = trackLength ⟨0, 16, 100, false⟩ [⟨0, 200, 50, 200, 0⟩] ∧
    tween2EndXPercent ⟨0, 200, 50, 200, 0⟩ = 0 :=
  coreAnimation_seamless_offsets ⟨0, 16, 100, false⟩ [⟨0, 200, 50, 200, 0⟩]
    ⟨0, 200, 50, 200, 0⟩ (by decide) (by norm_num)

/-- For a non-negative argument, the JavaScript remainder by one agrees with
the fractional part. -/
theorem jsRem_one_of_nonneg (t : ℚ) (ht : 0 ≤ t) : jsRem t 1 = Int.fract t := by
  unfold jsRem jsTrunc
  rw [div_one, if_pos ht, one_mul, Int.self_sub_floor]

/-- The JavaScript remainder by one always lies strictly between -1 and 1. -/
theorem jsRem_one_bounds (x : ℚ) : -1 < jsRem x 1 ∧ jsRem x 1 < 1 := by
  by_cases hx : 0 ≤ x
  · rw [jsRem_one_of_nonneg x hx]
    constructor
    · have := Int.fract_nonneg x
      linarith
    · exact Int.fract_lt_one x
  · have hx' : x < 0 := lt_of_not_ge hx
    have hrem : jsRem x 1 = x - ⌈x⌉ := by
      simp [jsRem, jsTrunc, hx]
    constructor
    · have := Int.ceil_lt_add_one x
      rw [hrem]
      linarith
    · have := Int.le_ceil x
      rw [hrem]
      linarith

/-- wrap01 agrees with the fractional part, hence lands in the unit
interval. -/
theorem wrap01_eq_fract_add_one (x : ℚ) :
    wrap01 x = Int.fract (jsRem x 1 + 1) := by
  have h := (jsRem_one_bounds x).1
  unfold wrap01
  exact jsRem_one_of_nonneg _ (by linarith)

/-- C10: every timeline progress value written by the drag alignment
function, wrap01 (startProgress + axis * ratio), lies in the half-open unit
interval: at least 0 and strictly below 1. -/
theorem dragAlignProgress_in_unit_interval (startProgress axis ratio : ℚ) :
    0 ≤ dragAlignProgress startProgress axis ratio ∧
      dragAlignProgress startProgress axis ratio < 1 := by
  unfold dragAlignProgress
  rw [wrap01_eq_fract_add_one]
  exact ⟨Int.fract_nonneg _, Int.fract_lt_one _⟩

/-- C3: for a positive single-content width, calculateDuplicates returns 1
when fill is false; when fill is true it returns the ceiling of container
width over content width if the content is narrower than the container
(the target width for horizontal marquees) and 1 otherwise; the returned
count is always at least 1 and, when fill is true, count times content
width covers the container width. -/
theorem calculateDuplicates_spec (wq cq : ℚ) (hw : 0 < wq) (fill : Bool)
    (winH : JSNum) :
    (fill = false →
      calculateDuplicates (.num wq) (.num cq) false fill winH = .num 1) ∧
    (fill = true →
      calculateDuplicates (.num wq) (.num cq) false fill winH =
        if wq < cq then .num ⌈cq / wq⌉ else .num 1) ∧
    (∃ n : ℤ, calculateDuplicates (.num wq) (.num cq) false fill winH =
      .num n ∧ 1 ≤ n ∧ (fill = true → cq ≤ n * wq)) := by
  have hw0 : wq ≠ 0 := ne_of_gt hw
  cases fill with
  | false =>
    refine ⟨fun _ => by simp [calculateDuplicates], fun h => by simp at h, ?_⟩
    exact ⟨1, by simp [calculateDuplicates], le_refl 1, fun h => by simp at h⟩
  | true =>
    have hmain : calculateDuplicates (.num wq) (.num cq) false true winH =
        if wq < cq then .num ⌈cq / wq⌉ else .num 1 := by
      by_cases hlt : wq < cq
      · simp [calculateDuplicates, JSNum.lt, JSNum.div, JSNum.ceil, hlt, hw0]
      · simp [calculateDuplicates, JSNum.lt, hlt]
    refine ⟨fun h => by simp at h, fun _ => hmain, ?_⟩
    by_cases hlt : wq < cq
    · refine ⟨⌈cq / wq⌉, by rw [hmain, if_pos hlt], ?_, fun _ => ?_⟩
      · have h1 : (1 : ℚ) < cq / wq := (one_lt_div hw).mpr hlt
        have h2 : (1 : ℚ) < (⌈cq / wq⌉ : ℚ) :=
          lt_of_lt_of_le h1 (Int.le_ceil (cq / wq))
        exact_mod_cast h2.le
      · have hle := Int.le_ceil (cq / wq)
        calc cq = cq / wq * wq := by field_simp
          _ ≤ (⌈cq / wq⌉ : ℚ) * wq :=
              mul_le_mul_of_nonneg_right hle (le_of_lt hw)
    · refine ⟨1, by rw [hmain, if_neg hlt]; norm_num, le_refl 1, fun _ => ?_⟩
      push_cast
      linarith [le_of_not_lt hlt]

/-- Witness for C3: content of width 700 and a container of width 500 need
a single copy in fill mode. -/
theorem calculateDuplicates_spec_witness :
    calculateDuplicates (.num 700) (.num 500) false true (.num 800) =
      .num 1 := by
  have h :=
    (calculateDuplicates_spec 700 500 (by norm_num) true (JSNum.num 800)).2.1
      rfl
  rw [h, if_neg (by norm_num)]

/-- C9: no clones are rendered when marqueeDuplicates is non-finite or at
most zero; for a finite positive integer count exactly that many clones are
rendered, for a total of marqueeDuplicates + 1 copies of the children; and
a content width of 0 in fill mode makes calculateDuplicates return positive
infinity, on which the clone count is still 0, so clone generation never
iterates a non-finite length. -/
theorem clonedMarquees_safety :
    (∀ d : JSNum, d.isFinite = false → clonedMarqueesCount d = 0) ∧
    (∀ d : JSNum, JSNum.le d (.num 0) = true → clonedMarqueesCount d = 0) ∧
    (∀ k : ℤ, 0 < k → clonedMarqueesCount (.num (k : ℚ)) = k.toNat ∧
      totalRenderedCopies (.num (k : ℚ)) = k.toNat + 1) ∧
    (∀ cq : ℚ, 0 < cq → ∀ winH : JSNum,
      calculateDuplicates (.num 0) (.num cq) false true winH = .posInf ∧
      clonedMarqueesCount
        (calculateDuplicates (.num 0) (.num cq) false true winH) = 0) := by
  refine ⟨?_, ?_, ?_, ?_⟩
  · intro d h
    cases d with
    | num q => simp [JSNum.isFinite] at h
    | posInf => rfl
    | negInf => rfl
    | nan => rfl
  · intro d h
    cases d with
    | num q =>
      have hq : q ≤ 0 := by simpa [JSNum.le] using h
      simp [clonedMarqueesCount, JSNum.isFinite, JSNum.le, hq]
    | posInf => simp [JSNum.le] at h
    | negInf => rfl
    | nan => simp [JSNum.le] at h
  · intro k hk
    have hk' : ¬((k : ℚ) ≤ 0) := not_le.mpr (by exact_mod_cast hk)
    have hcount : clonedMarqueesCount (.num (k : ℚ)) = k.toNat := by
      simp [clonedMarqueesCount, JSNum.isFinite, JSNum.le, hk',
        Int.floor_intCast]
    exact ⟨hcount, by simp [totalRenderedCopies, hcount]⟩
  · intro cq hcq winH
    have hmain :
        calculateDuplicates (.num 0) (.num cq) false true winH = .posInf := by
      simp [calculateDuplicates, JSNum.lt, JSNum.div, JSNum.ceil, hcq]
    exact ⟨hmain, by rw [hmain]; rfl⟩

/-- Witness for C9: a content width of 0 against a container of width 500
makes calculateDuplicates return positive infinity and the clone count 0. -/
theorem clonedMarquees_safety_witness :
    calculateDuplicates (.num 0) (.num 500) false true (.num 800) =
      .posInf ∧
    clonedMarqueesCount
      (calculateDuplicates (.num 0) (.num 500) false true (.num 800)) = 0 :=
  clonedMarquees_safety.2.2.2 500 (by norm_num) (.num 800)

end GsapReactMarquee
